import Mathlib

/-!
Verification of the SelfHostGameAccel control-plane state service.

This file gives a shallow embedding of the server protocol package
(server state, request handlers, persistence) and proves properties of it.
Go maps are modelled as association lists with overwrite-on-insert
semantics, randomness (tokens, salts) is passed to each operation as an
explicit argument, the password hash is an arbitrary function parameter,
and the file system seen by the persistence layer is modelled as an
association list from path to the decoded state document (JSON encoding
followed by decoding is treated as the identity on the state).
-/

namespace Protocol

/-- Go map lookup: the value stored under key k, if any. -/
def mapGet (k : String) : List (String × α) → Option α
  | [] => none
  | (k2, v) :: rest => if k2 = k then some v else mapGet k rest

/-- Go map insert: stores v under key k, overwriting an existing entry. -/
def mapSet (k : String) (v : α) : List (String × α) → List (String × α)
  | [] => [(k, v)]
  | (k2, v2) :: rest => if k2 = k then (k, v) :: rest else (k2, v2) :: mapSet k v rest

/-- Go type Transport string. -/
abbrev Transport := String

/-- Constant TransportUDP of the source. -/
def TransportUDP : Transport := "udp"

/-- Constant TransportTCP of the source. -/
def TransportTCP : Transport := "tcp"

/-- Whether a character is whitespace for Go (unicode.IsSpace, the
White_Space table), used by strings.TrimSpace. -/
def isGoSpace (c : Char) : Bool :=
  c.toNat = 32 || c.toNat = 9 || c.toNat = 10 || c.toNat = 11 || c.toNat = 12 ||
  c.toNat = 13 || c.toNat = 133 || c.toNat = 160 || c.toNat = 5760 ||
  (8192 ≤ c.toNat && c.toNat ≤ 8202) || c.toNat = 8232 || c.toNat = 8233 ||
  c.toNat = 8239 || c.toNat = 8287 || c.toNat = 12288

/-- Go strings.TrimSpace: drops leading and trailing whitespace. -/
def trimSpace (s : String) : String :=
  String.mk (((s.data.dropWhile isGoSpace).reverse.dropWhile isGoSpace).reverse)

/-- Go strings.Contains(s, " "): whether s contains a space character. -/
def containsSpace (s : String) : Bool :=
  s.data.contains ' '

/-- User record of the credential store (struct userRecord).  The Admin
field is modelled from the spec: the current server source carrying the
admin flag is not in the retrieved snapshot (only its tests and the
client caller are); the spec declares a per-user admin flag controlling
room creation and role management. -/
structure userRecord where
  Username : String
  Salt : String
  Hash : String
  Device : String
  Admin : Bool
  deriving DecidableEq

/-- Room record of the room registry (struct roomRecord). -/
structure roomRecord where
  ID : String
  Name : String
  PreferredTransport : Transport
  MTU : Nat
  OverlaySubnet : String
  KeepaliveInterval : Nat
  Members : List (String × String)
  deriving DecidableEq

/-- Request body of register (struct RegisterRequest). -/
structure RegisterRequest where
  Username : String
  Password : String
  DeviceID : String
  deriving DecidableEq

/-- Response body of register (struct RegisterResponse). -/
structure RegisterResponse where
  SessionToken : String
  DeviceToken : String
  deriving DecidableEq

/-- Request body of login (struct LoginRequest). -/
structure LoginRequest where
  Username : String
  Password : String
  deriving DecidableEq

/-- Response body of login (struct LoginResponse). -/
structure LoginResponse where
  SessionToken : String
  DeviceToken : String
  deriving DecidableEq

/-- Request body of refresh (struct RefreshTokenRequest). -/
structure RefreshTokenRequest where
  DeviceToken : String
  deriving DecidableEq

/-- Response body of refresh (struct RefreshTokenResponse). -/
structure RefreshTokenResponse where
  SessionToken : String
  deriving DecidableEq

/-- Request body of createRoom (struct CreateRoomRequest).  The
SessionToken field is modelled from the spec and the tests: the external
interface table lists sessionToken among createRoom inputs, and the test
suite sets it; the retrieved server snapshot predates the field. -/
structure CreateRoomRequest where
  Name : String
  PreferredTransport : Transport
  MTU : Nat
  SessionToken : String
  deriving DecidableEq

/-- Response body of createRoom (struct CreateRoomResponse). -/
structure CreateRoomResponse where
  RoomID : String
  OverlaySubnet : String
  PreferredTransport : Transport
  MTU : Nat
  deriving DecidableEq

/-- Request body of joinRoom (struct JoinRoomRequest). -/
structure JoinRoomRequest where
  RoomID : String
  DeviceID : String
  SessionToken : String
  deriving DecidableEq

/-- Response body of joinRoom (struct JoinRoomResponse). -/
structure JoinRoomResponse where
  VirtualIP : String
  SessionKey : String
  Transport : Transport
  KeepaliveIntervalSec : Nat
  OverlaySubnetReference : String
  deriving DecidableEq

/-- Modelled from the spec: request body of updateAdminRole (struct
AdminRoleUpdateRequest).  The type is referenced by the client
(UpdateAdminRole) and by the test suite but its declaration is not in the
retrieved snapshot; fields follow the external interface table
(sessionToken, targetUser, grant). -/
structure AdminRoleUpdateRequest where
  SessionToken : String
  TargetUser : String
  Grant : Bool
  deriving DecidableEq

/-- Modelled from the spec: response body of updateAdminRole (struct
AdminRoleUpdateResponse), carrying the target user's resulting admin
flag, as read by the test suite. -/
structure AdminRoleUpdateResponse where
  IsAdmin : Bool
  deriving DecidableEq

/-- Typed failure kinds, abstracting the HTTP status codes the handlers
write: 400, 401, 403, 404, 409. -/
inductive ApiError where
  | invalidInput
  | unauthorized
  | forbidden
  | notFound
  | conflict
  deriving DecidableEq

/-- In-memory server state (struct Server without the HTTP mux and lock:
the lock serializes handlers, so each handler is a function on state). -/
structure ServerState where
  users : List (String × userRecord)
  sessions : List (String × String)
  deviceBags : List (String × String)
  rooms : List (String × roomRecord)
  persistPath : String
  deriving DecidableEq

/-- Persisted document (struct persistentState): users, device-token
bindings and rooms; sessions are excluded. -/
structure persistentState where
  Users : List (String × userRecord)
  DeviceBags : List (String × String)
  Rooms : List (String × roomRecord)
  deriving DecidableEq

/-- Server state together with the file system the persistence layer
writes to, modelled as path to decoded state document. -/
structure World where
  server : ServerState
  fs : List (String × persistentState)
  deriving DecidableEq

/-- Whether an operation result is a success. -/
def exceptOk : Except ApiError α → Bool
  | Except.ok _ => true
  | Except.error _ => false

/-- The persistent projection of the in-memory state, as assembled by
persistLocked. -/
def projState (st : ServerState) : persistentState :=
  { Users := st.users, DeviceBags := st.deviceBags, Rooms := st.rooms }

/-- loadState: missing file decodes to the empty state; otherwise the
stored document (nil substructures of the source default to empty, which
the model represents by total fields). -/
def loadState (path : String) (fs : List (String × persistentState)) : persistentState :=
  match mapGet path fs with
  | none => { Users := [], DeviceBags := [], Rooms := [] }
  | some st => st

/-- saveState: writes the encoded state at the path (the write-temp then
atomic-rename sequence of the source leaves exactly this document). -/
def saveState (path : String) (st : persistentState)
    (fs : List (String × persistentState)) : List (String × persistentState) :=
  mapSet path st fs

/-- persistLocked: no-op without a configured path, otherwise saves the
persistent projection of the current state. -/
def persistLocked (w : World) : World :=
  if w.server.persistPath = "" then w
  else { w with fs := saveState w.server.persistPath (projState w.server) w.fs }

variable (hashPassword : String → String → String)

/-- seedDemoUser: seeds the gamer demo user with its demo-device binding.
Its Admin flag is modelled from the spec: the demo user is the bootstrap
identity, and the test suite has it grant and revoke roles. -/
def seedDemoUser (salt : String) (st : ServerState) : ServerState :=
  { st with
    users := mapSet ("gamer")
      { Username := "gamer", Salt := salt, Hash := hashPassword ("password123") salt,
        Device := "demo-device", Admin := true } st.users,
    deviceBags := mapSet ("demo-device") ("gamer") st.deviceBags }

/-- loadFromDisk: loads the document at the persist path; an empty user
set seeds the demo user, otherwise the loaded collections are adopted. -/
def loadFromDisk (demoSalt : String) (st : ServerState)
    (fs : List (String × persistentState)) : ServerState :=
  let state := loadState st.persistPath fs
  if state.Users.isEmpty then seedDemoUser hashPassword demoSalt st
  else { st with users := state.Users, deviceBags := state.DeviceBags, rooms := state.Rooms }

/-- NewServerWithStorage: fresh state; with a persist path it loads from
disk, otherwise it seeds the demo user. -/
def newServerWithStorage (persistPath demoSalt : String)
    (fs : List (String × persistentState)) : World :=
  let st : ServerState :=
    { users := [], sessions := [], deviceBags := [], rooms := [], persistPath := persistPath }
  if persistPath = "" then { server := seedDemoUser hashPassword demoSalt st, fs := fs }
  else { server := loadFromDisk hashPassword demoSalt st fs, fs := fs }

/-- handleRegister: validates inputs, rejects duplicate usernames, then
stores the user record, binds device identifier and fresh tokens, and
persists before acknowledging.  genDevice stands for the random default
device identifier, salt, sessionToken and deviceToken for the random
values the source draws.  The Admin field is modelled from the spec:
admin is true iff the store was empty (first user ever registered). -/
def handleRegister (w : World) (req : RegisterRequest)
    (genDevice salt sessionToken deviceToken : String) :
    Except ApiError RegisterResponse × World :=
  if trimSpace req.Username = "" ∨ trimSpace req.Password = "" then
    (Except.error ApiError.invalidInput, w)
  else
    let deviceID := if req.DeviceID = "" then genDevice else req.DeviceID
    if containsSpace req.Username then (Except.error ApiError.invalidInput, w)
    else
      match mapGet req.Username w.server.users with
      | some _ => (Except.error ApiError.conflict, w)
      | none =>
        let record : userRecord :=
          { Username := req.Username, Salt := salt,
            Hash := hashPassword req.Password salt, Device := deviceID,
            Admin := w.server.users.isEmpty }
        let st :=
          { w.server with
            users := mapSet req.Username record w.server.users,
            deviceBags := mapSet deviceToken req.Username
              (mapSet deviceID req.Username w.server.deviceBags),
            sessions := mapSet sessionToken req.Username w.server.sessions }
        (Except.ok { SessionToken := sessionToken, DeviceToken := deviceToken },
          persistLocked { w with server := st })

/-- handleLogin: verifies the salted hash, issues fresh session and
device tokens, persists before acknowledging. -/
def handleLogin (w : World) (req : LoginRequest) (sessionToken deviceToken : String) :
    Except ApiError LoginResponse × World :=
  match mapGet req.Username w.server.users with
  | none => (Except.error ApiError.unauthorized, w)
  | some record =>
    if record.Hash ≠ hashPassword req.Password record.Salt then
      (Except.error ApiError.unauthorized, w)
    else
      let st :=
        { w.server with
          sessions := mapSet sessionToken req.Username w.server.sessions,
          deviceBags := mapSet deviceToken req.Username w.server.deviceBags }
      (Except.ok { SessionToken := sessionToken, DeviceToken := deviceToken },
        persistLocked { w with server := st })

/-- handleRefresh: resolves the presented token in the device-binding
map and mints a fresh session token; the source acknowledges without
invoking persistLocked. -/
def handleRefresh (w : World) (req : RefreshTokenRequest) (sessionToken : String) :
    Except ApiError RefreshTokenResponse × World :=
  match mapGet req.DeviceToken w.server.deviceBags with
  | none => (Except.error ApiError.unauthorized, w)
  | some username =>
    let st := { w.server with sessions := mapSet sessionToken username w.server.sessions }
    (Except.ok { SessionToken := sessionToken }, { w with server := st })

/-- Modelled from the spec: canCreateRoom and canManageRoles are the same
predicate, true iff the user's admin flag is set (a username missing from
the store has no flag set). -/
def isAdminUser (st : ServerState) (username : String) : Bool :=
  match mapGet username st.users with
  | none => false
  | some record => record.Admin

/-- handleCreateRoom: the session gate is modelled from the spec (an
unresolved session token fails Unauthorized, a resolved non-admin session
fails Forbidden; the retrieved snapshot predates the gate, which the test
suite exercises); the creation itself follows the source: id room-n and
subnet 10.0.n.0/24 with n one plus the current room count, MTU defaulted
to 1400 when zero, transport defaulted to udp when empty, keepalive 15,
then persists before acknowledging. -/
def handleCreateRoom (w : World) (req : CreateRoomRequest) :
    Except ApiError CreateRoomResponse × World :=
  match mapGet req.SessionToken w.server.sessions with
  | none => (Except.error ApiError.unauthorized, w)
  | some username =>
    if !isAdminUser w.server username then (Except.error ApiError.forbidden, w)
    else
      let n := w.server.rooms.length + 1
      let roomID := "room-" ++ toString n
      let subnet := "10.0." ++ toString n ++ ".0/24"
      let mtu := if req.MTU = 0 then 1400 else req.MTU
      let transport := if req.PreferredTransport = "" then TransportUDP else req.PreferredTransport
      let room : roomRecord :=
        { ID := roomID, Name := req.Name, PreferredTransport := transport, MTU := mtu,
          OverlaySubnet := subnet, KeepaliveInterval := 15, Members := [] }
      let st := { w.server with rooms := mapSet roomID room w.server.rooms }
      let resp : CreateRoomResponse :=
        { RoomID := roomID, OverlaySubnet := subnet,
          PreferredTransport := transport, MTU := mtu }
      (Except.ok resp, persistLocked { w with server := st })

/-- handleJoinRoom: resolves the session first (Unauthorized on failure),
then the room (NotFound on failure), computes the virtual ip from the
member count before recording the membership, persists before
acknowledging.  sessionKey stands for the random key the source draws. -/
def handleJoinRoom (w : World) (req : JoinRoomRequest) (sessionKey : String) :
    Except ApiError JoinRoomResponse × World :=
  match mapGet req.SessionToken w.server.sessions with
  | none => (Except.error ApiError.unauthorized, w)
  | some username =>
    match mapGet req.RoomID w.server.rooms with
    | none => (Except.error ApiError.notFound, w)
    | some room =>
      let virtualIP :=
        "10.0." ++ toString (room.Members.length + 1) ++ "." ++ toString (room.Members.length + 2)
      let room2 := { room with Members := mapSet req.DeviceID username room.Members }
      let st := { w.server with rooms := mapSet req.RoomID room2 w.server.rooms }
      let resp : JoinRoomResponse :=
        { VirtualIP := virtualIP, SessionKey := sessionKey,
          Transport := room.PreferredTransport,
          KeepaliveIntervalSec := room.KeepaliveInterval,
          OverlaySubnetReference := room.OverlaySubnet }
      (Except.ok resp, persistLocked { w with server := st })

/-- Modelled from the spec: handleUpdateAdminRole (route /admin/role),
absent from the retrieved snapshot but called by the client and the test
suite.  Per the spec it fails Forbidden if the acting user is not admin,
NotFound if the target user does not exist, and otherwise sets the
target's admin flag to the requested value and returns the resulting
flag; an unresolvable session token fails Unauthorized per the error
taxonomy. -/
def handleUpdateAdminRole (w : World) (req : AdminRoleUpdateRequest) :
    Except ApiError AdminRoleUpdateResponse × World :=
  match mapGet req.SessionToken w.server.sessions with
  | none => (Except.error ApiError.unauthorized, w)
  | some acting =>
    if !isAdminUser w.server acting then (Except.error ApiError.forbidden, w)
    else
      match mapGet req.TargetUser w.server.users with
      | none => (Except.error ApiError.notFound, w)
      | some target =>
        let st :=
          { w.server with
            users := mapSet req.TargetUser { target with Admin := req.Grant } w.server.users }
        (Except.ok { IsAdmin := req.Grant }, persistLocked { w with server := st })

/-- One control-plane operation together with the random values it
draws, for statements quantifying over arbitrary operation sequences. -/
inductive Op where
  | register (req : RegisterRequest) (genDevice salt sessionToken deviceToken : String)
  | login (req : LoginRequest) (sessionToken deviceToken : String)
  | refresh (req : RefreshTokenRequest) (sessionToken : String)
  | createRoom (req : CreateRoomRequest)
  | joinRoom (req : JoinRoomRequest) (sessionKey : String)
  | updateAdminRole (req : AdminRoleUpdateRequest)

/-- The state transition of one operation (its response discarded). -/
def applyOp (w : World) : Op → World
  | Op.register req g sa st dt => (handleRegister hashPassword w req g sa st dt).2
  | Op.login req st dt => (handleLogin hashPassword w req st dt).2
  | Op.refresh req st => (handleRefresh w req st).2
  | Op.createRoom req => (handleCreateRoom w req).2
  | Op.joinRoom req k => (handleJoinRoom w req k).2
  | Op.updateAdminRole req => (handleUpdateAdminRole w req).2

/-- The overlay subnet a joinRoom result reports, if it succeeded. -/
def joinOverlay : Except ApiError JoinRoomResponse → Option String
  | Except.ok resp => some resp.OverlaySubnetReference
  | Except.error _ => none

/-- A concrete salted hash (salt, then a colon, then the password) used
to instantiate the hash parameter in concrete evaluations; the claims
depend only on the hash being a deterministic function. -/
def hcat (password salt : String) : String := salt ++ (":") ++ password

/-- A fresh server without persistence: only the demo user is present. -/
def demoWorld : World := newServerWithStorage hcat ("") ("s0") []

/-- A fresh server against a persistence path whose file does not exist
yet: the demo user is seeded and nothing has been written to disk. -/
def freshPathWorld : World := newServerWithStorage hcat ("p") ("s0") []

/-- A concrete admin user record whose password is warp123 under hcat. -/
def sampleUser : userRecord :=
  { Username := "nova", Salt := "s", Hash := "s:warp123", Device := "rig-device", Admin := true }

/-- A concrete non-admin user record. -/
def memberUser : userRecord :=
  { Username := "memb", Salt := "t", Hash := "t:pw", Device := "dev-m", Admin := false }

/-- A server state holding a logged-in non-admin session. -/
def nonAdminWorld : World :=
  { server :=
      { users := [(("memb"), memberUser)], sessions := [(("tokm"), ("memb"))],
        deviceBags := [], rooms := [], persistPath := "" },
    fs := [] }

/-- A concrete room record. -/
def roomRec1 : roomRecord :=
  { ID := "room-1", Name := "alpha", PreferredTransport := TransportUDP, MTU := 1400,
    OverlaySubnet := "10.0.1.0/24", KeepaliveInterval := 15, Members := [] }

/-- A server state with one user and one room, configured with a
persistence path, before its first save. -/
def persistedWorld : World :=
  { server :=
      { users := [(("nova"), sampleUser)], sessions := [],
        deviceBags := [(("rig-device"), ("nova"))],
        rooms := [(("room-1"), roomRec1)], persistPath := "state.json" },
    fs := [] }

/-- A state with no users at all (fresh store, before any seeding). -/
def emptyWorld : World :=
  { server := { users := [], sessions := [], deviceBags := [], rooms := [], persistPath := "" },
    fs := [] }

/-- A concrete registration request. -/
def leaderReq : RegisterRequest :=
  { Username := "leader", Password := "secret", DeviceID := "dl" }

/-- A concrete registration request with a caller-chosen device id. -/
def novaReq : RegisterRequest :=
  { Username := "nova", Password := "warp123", DeviceID := "rig-device" }

/-- The world reached by registering novaReq against the empty state. -/
def novaWorld : World :=
  (handleRegister hcat emptyWorld novaReq ("g") ("sa") ("st") ("dt")).2

/-- The world reached by registering leaderReq against the fresh-path
state. -/
def regPathWorld : World :=
  (handleRegister hcat freshPathWorld leaderReq ("g") ("sa") ("st") ("dt")).2

/-- A state holding an admin user with a live session and a non-admin
user. -/
def adminWorld : World :=
  { server :=
      { users := [(("nova"), sampleUser), (("memb"), memberUser)],
        sessions := [(("tok1"), ("nova"))], deviceBags := [], rooms := [],
        persistPath := "" },
    fs := [] }

/-- A concrete createRoom request with unspecified transport and mtu. -/
def cr9 : CreateRoomRequest :=
  { Name := "alpha", PreferredTransport := "", MTU := 0, SessionToken := "tok1" }

/-- The response cr9 draws from adminWorld. -/
def cr9resp : CreateRoomResponse :=
  { RoomID := "room-1", OverlaySubnet := "10.0.1.0/24",
    PreferredTransport := TransportUDP, MTU := 1400 }

/-- The world reached by creating a room via cr9 in adminWorld. -/
def crWorld : World := (handleCreateRoom adminWorld cr9).2

/-! Helper lemmas shared by the claim theorems. -/

/-- Persisting never changes the in-memory server state. -/
theorem persistLocked_server (w : World) : (persistLocked w).server = w.server := by
  unfold persistLocked; split <;> rfl

/-- Looking up a key just stored finds the stored value. -/
theorem mapGet_mapSet_self (k : String) (v : α) (l : List (String × α)) :
    mapGet k (mapSet k v l) = some v := by
  induction l with
  | nil => simp [mapGet, mapSet]
  | cons hd t ih =>
    obtain ⟨k2, v2⟩ := hd
    by_cases hk : k2 = k <;> simp [mapGet, mapSet, hk, ih]

/-- Storing under one key leaves lookups of other keys unchanged. -/
theorem mapGet_mapSet_ne (k k2 : String) (hne : k2 ≠ k) (v : α) (l : List (String × α)) :
    mapGet k (mapSet k2 v l) = mapGet k l := by
  induction l with
  | nil => simp [mapGet, mapSet, hne]
  | cons hd t ih =>
    obtain ⟨k3, v3⟩ := hd
    simp only [mapSet]
    by_cases hk : k3 = k2
    · subst hk
      simp [mapGet, hne]
    · simp [mapGet, hk, ih]

/-- A map is nonempty after an insert. -/
theorem mapSet_ne_nil (k : String) (v : α) (l : List (String × α)) :
    mapSet k v l ≠ [] := by
  cases l with
  | nil => simp [mapSet]
  | cons hd t =>
    obtain ⟨k2, v2⟩ := hd
    by_cases hk : k2 = k <;> simp [mapSet, hk]

/-- Elimination for a successful register: the response carries the two
fresh tokens, the final world is the persisted update with the stored
record, and every validation check passed. -/
theorem handleRegister_ok_elim (hp : String → String → String) (w : World)
    (req : RegisterRequest) (g sa st dt : String) (resp : RegisterResponse) (w2 : World)
    (h : handleRegister hp w req g sa st dt = (Except.ok resp, w2)) :
    resp = { SessionToken := st, DeviceToken := dt } ∧
    w2 = persistLocked { w with server := { w.server with
        users := mapSet req.Username
          { Username := req.Username, Salt := sa, Hash := hp req.Password sa,
            Device := if req.DeviceID = "" then g else req.DeviceID,
            Admin := w.server.users.isEmpty } w.server.users,
        deviceBags := mapSet dt req.Username
          (mapSet (if req.DeviceID = "" then g else req.DeviceID) req.Username
            w.server.deviceBags),
        sessions := mapSet st req.Username w.server.sessions } } ∧
    ¬ trimSpace req.Username = "" ∧ ¬ trimSpace req.Password = "" ∧
    ¬ containsSpace req.Username = true ∧
    mapGet req.Username w.server.users = none := by
  by_cases h1 : trimSpace req.Username = "" ∨ trimSpace req.Password = ""
  · simp [handleRegister, h1] at h
  · by_cases h2 : containsSpace req.Username = true
    · simp [handleRegister, h1, h2] at h
    · cases hm : mapGet req.Username w.server.users with
      | some r => simp [handleRegister, h1, h2, hm] at h
      | none =>
        push_neg at h1
        have h1a := h1.1
        have h1b := h1.2
        simp [handleRegister, h1a, h1b, h2, hm] at h
        obtain ⟨hresp, hw2⟩ := h
        subst hresp
        subst hw2
        exact ⟨rfl, rfl, h1a, h1b, h2, rfl⟩

/-- Registering an already-present username fails Conflict without any
state change, provided the request passes the input validation. -/
theorem handleRegister_conflict (hp : String → String → String) (w : World)
    (req : RegisterRequest) (g sa st dt : String)
    (hva : ¬ trimSpace req.Username = "") (hvb : ¬ trimSpace req.Password = "")
    (hc : ¬ containsSpace req.Username = true)
    (r : userRecord) (hm : mapGet req.Username w.server.users = some r) :
    handleRegister hp w req g sa st dt = (Except.error ApiError.conflict, w) := by
  simp [handleRegister, hva, hvb, hc, hm]

/-- Registration keeps the user store nonempty. -/
theorem handleRegister_users_ne_nil (hp : String → String → String) (w : World)
    (req : RegisterRequest) (g sa st dt : String) (h : w.server.users ≠ []) :
    (handleRegister hp w req g sa st dt).2.server.users ≠ [] := by
  by_cases h1 : trimSpace req.Username = "" ∨ trimSpace req.Password = ""
  · simpa [handleRegister, h1] using h
  · by_cases h2 : containsSpace req.Username = true
    · simpa [handleRegister, h1, h2] using h
    · cases hm : mapGet req.Username w.server.users with
      | some r => simpa [handleRegister, h1, h2, hm] using h
      | none => simp [handleRegister, h1, h2, hm, persistLocked_server, mapSet_ne_nil]

/-- Login never changes the user store. -/
theorem handleLogin_users (hp : String → String → String) (w : World)
    (req : LoginRequest) (st dt : String) :
    (handleLogin hp w req st dt).2.server.users = w.server.users := by
  unfold handleLogin
  cases hm : mapGet req.Username w.server.users with
  | none => rfl
  | some r =>
    by_cases hh : r.Hash ≠ hp req.Password r.Salt
    · simp [hh]
    · simp [hh, persistLocked_server]

/-- Refresh never changes the user store. -/
theorem handleRefresh_users (w : World) (req : RefreshTokenRequest) (st : String) :
    (handleRefresh w req st).2.server.users = w.server.users := by
  unfold handleRefresh
  cases hm : mapGet req.DeviceToken w.server.deviceBags with
  | none => rfl
  | some u => rfl

/-- Room creation never changes the user store. -/
theorem handleCreateRoom_users (w : World) (req : CreateRoomRequest) :
    (handleCreateRoom w req).2.server.users = w.server.users := by
  unfold handleCreateRoom
  cases hm : mapGet req.SessionToken w.server.sessions with
  | none => rfl
  | some u =>
    by_cases ha : isAdminUser w.server u
    · simp [ha, persistLocked_server]
    · simp [ha]

/-- Joining a room never changes the user store. -/
theorem handleJoinRoom_users (w : World) (req : JoinRoomRequest) (key : String) :
    (handleJoinRoom w req key).2.server.users = w.server.users := by
  unfold handleJoinRoom
  cases hs : mapGet req.SessionToken w.server.sessions with
  | none => rfl
  | some u =>
    cases hr : mapGet req.RoomID w.server.rooms with
    | none => rfl
    | some room => simp [persistLocked_server]

/-- A role update keeps the user store nonempty. -/
theorem handleUpdateAdminRole_users_ne_nil (w : World) (req : AdminRoleUpdateRequest)
    (h : w.server.users ≠ []) :
    (handleUpdateAdminRole w req).2.server.users ≠ [] := by
  unfold handleUpdateAdminRole
  cases hs : mapGet req.SessionToken w.server.sessions with
  | none => exact h
  | some u =>
    by_cases ha : isAdminUser w.server u
    · cases ht : mapGet req.TargetUser w.server.users with
      | none => simpa [ha] using h
      | some t => simp [ha, persistLocked_server, mapSet_ne_nil]
    · simpa [ha] using h

/-- No control-plane operation empties the user store. -/
theorem applyOp_users_ne_nil (hp : String → String → String) (w : World) (op : Op)
    (h : w.server.users ≠ []) : (applyOp hp w op).server.users ≠ [] := by
  cases op with
  | register req g sa st dt => exact handleRegister_users_ne_nil hp w req g sa st dt h
  | login req st dt => simpa [applyOp, handleLogin_users] using h
  | refresh req st => simpa [applyOp, handleRefresh_users] using h
  | createRoom req => simpa [applyOp, handleCreateRoom_users] using h
  | joinRoom req key => simpa [applyOp, handleJoinRoom_users] using h
  | updateAdminRole req => exact handleUpdateAdminRole_users_ne_nil w req h

/-! Claim theorems. -/

/-- C1: createRoom succeeds only when the supplied session token
resolves to a user whose admin flag is set: an unresolved session fails
(Unauthorized), a session resolving to a non-admin user always fails
Forbidden, and in both failure cases the world — in particular the room
registry — is unchanged. -/
theorem createRoom_requires_admin_session :
    (∀ (w : World) (req : CreateRoomRequest),
        mapGet req.SessionToken w.server.sessions = none →
        handleCreateRoom w req = (Except.error ApiError.unauthorized, w)) ∧
    (∀ (w : World) (req : CreateRoomRequest) (u : String),
        mapGet req.SessionToken w.server.sessions = some u →
        isAdminUser w.server u = false →
        handleCreateRoom w req = (Except.error ApiError.forbidden, w)) ∧
    (∀ (w : World) (req : CreateRoomRequest),
        exceptOk (handleCreateRoom w req).1 = true →
        ∃ u, mapGet req.SessionToken w.server.sessions = some u ∧
          isAdminUser w.server u = true) := by
  refine ⟨?_, ?_, ?_⟩
  · intro w req hs
    simp [handleCreateRoom, hs]
  · intro w req u hs ha
    simp [handleCreateRoom, hs, ha]
  · intro w req hok
    cases hs : mapGet req.SessionToken w.server.sessions with
    | none => simp [handleCreateRoom, hs, exceptOk] at hok
    | some u =>
      by_cases ha : isAdminUser w.server u
      · exact ⟨u, rfl, ha⟩
      · simp [handleCreateRoom, hs, ha, exceptOk] at hok

/-- Witness for C1: a concrete non-admin session is rejected with
Forbidden and the state is untouched. -/
theorem createRoom_requires_admin_session_witness :
    mapGet ("tokm") nonAdminWorld.server.sessions = some ("memb") ∧
    isAdminUser nonAdminWorld.server ("memb") = false ∧
    handleCreateRoom nonAdminWorld
        { Name := "restricted", PreferredTransport := "", MTU := 0, SessionToken := "tokm" }
      = (Except.error ApiError.forbidden, nonAdminWorld) :=
  ⟨rfl, rfl, createRoom_requires_admin_session.2.1 nonAdminWorld
    { Name := "restricted", PreferredTransport := "", MTU := 0, SessionToken := "tokm" }
    ("memb") rfl rfl⟩

/-- C2: a successful register against a state with an empty user store
stores the record with admin true; a successful register against a
nonempty store stores admin false; and no operation ever empties the
user store again, so every user registered after the first one gets
admin false at registration. -/
theorem register_first_user_gets_admin (hp : String → String → String) :
    (∀ (w : World) (req : RegisterRequest) (g sa st dt : String)
        (resp : RegisterResponse) (w2 : World),
        handleRegister hp w req g sa st dt = (Except.ok resp, w2) →
        w.server.users = [] →
        Option.map userRecord.Admin (mapGet req.Username w2.server.users) = some true) ∧
    (∀ (w : World) (req : RegisterRequest) (g sa st dt : String)
        (resp : RegisterResponse) (w2 : World),
        handleRegister hp w req g sa st dt = (Except.ok resp, w2) →
        w.server.users ≠ [] →
        Option.map userRecord.Admin (mapGet req.Username w2.server.users) = some false) ∧
    (∀ (w : World) (op : Op), w.server.users ≠ [] →
        (applyOp hp w op).server.users ≠ []) := by
  refine ⟨?_, ?_, fun w op h => applyOp_users_ne_nil hp w op h⟩
  · intro w req g sa st dt resp w2 h husers
    obtain ⟨hresp, hw2, hrest⟩ := handleRegister_ok_elim hp w req g sa st dt resp w2 h
    subst hw2
    rw [persistLocked_server]
    simp [mapGet_mapSet_self, husers]
  · intro w req g sa st dt resp w2 h husers
    obtain ⟨hresp, hw2, hrest⟩ := handleRegister_ok_elim hp w req g sa st dt resp w2 h
    subst hw2
    rw [persistLocked_server]
    cases hu : w.server.users with
    | nil => exact absurd hu husers
    | cons a t => simp [mapGet_mapSet_self, hu]

/-- Witness for C2: the first register against the empty store yields an
admin record. -/
theorem register_first_user_gets_admin_witness :
    handleRegister hcat emptyWorld leaderReq ("g") ("sa") ("st") ("dt")
      = (Except.ok { SessionToken := "st", DeviceToken := "dt" },
          (handleRegister hcat emptyWorld leaderReq ("g") ("sa") ("st") ("dt")).2) ∧
    emptyWorld.server.users = [] ∧
    Option.map userRecord.Admin (mapGet leaderReq.Username
        (handleRegister hcat emptyWorld leaderReq ("g") ("sa") ("st") ("dt")).2.server.users)
      = some true :=
  ⟨rfl, rfl, (register_first_user_gets_admin hcat).1 emptyWorld leaderReq
    ("g") ("sa") ("st") ("dt") { SessionToken := "st", DeviceToken := "dt" }
    (handleRegister hcat emptyWorld leaderReq ("g") ("sa") ("st") ("dt")).2 rfl rfl⟩

/-- C3: updateAdminRole fails Forbidden when the acting user resolved
from the session is not admin, fails NotFound when the acting user is
admin but the target username does not exist, and otherwise sets the
target user's admin flag to the requested value and returns the
resulting flag. -/
theorem updateAdminRole_forbidden_notFound_sets_flag :
    (∀ (w : World) (req : AdminRoleUpdateRequest) (u : String),
        mapGet req.SessionToken w.server.sessions = some u →
        isAdminUser w.server u = false →
        handleUpdateAdminRole w req = (Except.error ApiError.forbidden, w)) ∧
    (∀ (w : World) (req : AdminRoleUpdateRequest) (u : String),
        mapGet req.SessionToken w.server.sessions = some u →
        isAdminUser w.server u = true →
        mapGet req.TargetUser w.server.users = none →
        handleUpdateAdminRole w req = (Except.error ApiError.notFound, w)) ∧
    (∀ (w : World) (req : AdminRoleUpdateRequest) (u : String) (t : userRecord),
        mapGet req.SessionToken w.server.sessions = some u →
        isAdminUser w.server u = true →
        mapGet req.TargetUser w.server.users = some t →
        (handleUpdateAdminRole w req).1 = Except.ok { IsAdmin := req.Grant } ∧
        Option.map userRecord.Admin
          (mapGet req.TargetUser (handleUpdateAdminRole w req).2.server.users)
          = some req.Grant) := by
  refine ⟨?_, ?_, ?_⟩
  · intro w req u hs ha
    simp [handleUpdateAdminRole, hs, ha]
  · intro w req u hs ha ht
    simp [handleUpdateAdminRole, hs, ha, ht]
  · intro w req u t hs ha ht
    refine ⟨?_, ?_⟩
    · simp [handleUpdateAdminRole, hs, ha, ht]
    · simp [handleUpdateAdminRole, hs, ha, ht, persistLocked_server, mapGet_mapSet_self]

/-- Witness for C3: an admin session grants admin to a present non-admin
target and the returned flag is the requested one. -/
theorem updateAdminRole_forbidden_notFound_sets_flag_witness :
    mapGet ("tok1") adminWorld.server.sessions = some ("nova") ∧
    isAdminUser adminWorld.server ("nova") = true ∧
    mapGet ("memb") adminWorld.server.users = some memberUser ∧
    (handleUpdateAdminRole adminWorld
        { SessionToken := "tok1", TargetUser := "memb", Grant := true }).1
      = Except.ok { IsAdmin := true } ∧
    Option.map userRecord.Admin (mapGet ("memb")
        (handleUpdateAdminRole adminWorld
          { SessionToken := "tok1", TargetUser := "memb", Grant := true }).2.server.users)
      = some true :=
  ⟨rfl, rfl, rfl,
    (updateAdminRole_forbidden_notFound_sets_flag.2.2 adminWorld
      { SessionToken := "tok1", TargetUser := "memb", Grant := true }
      ("nova") memberUser rfl rfl rfl).1,
    (updateAdminRole_forbidden_notFound_sets_flag.2.2 adminWorld
      { SessionToken := "tok1", TargetUser := "memb", Grant := true }
      ("nova") memberUser rfl rfl rfl).2⟩

/-- C4 counterexample: joining a nonexistent room with an invalid
session fails Unauthorized, not NotFound — the session is checked before
the room, so NotFound is not returned regardless of session validity. -/
theorem joinRoom_invalid_session_missing_room_unauthorized :
    mapGet ("room-1") demoWorld.server.rooms = none ∧
    handleJoinRoom demoWorld { RoomID := "room-1", DeviceID := "dev-a", SessionToken := "tok" }
        ("key") = (Except.error ApiError.unauthorized, demoWorld) :=
  ⟨rfl, rfl⟩

/-- C4 as amended: when the supplied session token resolves, joinRoom
against a room id absent from the registry fails NotFound and leaves the
state unchanged. -/
theorem joinRoom_valid_session_missing_room_notFound (w : World) (req : JoinRoomRequest)
    (key u : String)
    (hs : mapGet req.SessionToken w.server.sessions = some u)
    (hr : mapGet req.RoomID w.server.rooms = none) :
    handleJoinRoom w req key = (Except.error ApiError.notFound, w) := by
  simp [handleJoinRoom, hs, hr]

/-- Witness for the amended C4: a concrete valid session joining a
missing room gets NotFound. -/
theorem joinRoom_valid_session_missing_room_notFound_witness :
    mapGet ("tokm") nonAdminWorld.server.sessions = some ("memb") ∧
    mapGet ("room-9") nonAdminWorld.server.rooms = none ∧
    handleJoinRoom nonAdminWorld
        { RoomID := "room-9", DeviceID := "d", SessionToken := "tokm" } ("k")
      = (Except.error ApiError.notFound, nonAdminWorld) :=
  ⟨rfl, rfl, joinRoom_valid_session_missing_room_notFound nonAdminWorld
    { RoomID := "room-9", DeviceID := "d", SessionToken := "tokm" } ("k") ("memb") rfl rfl⟩

/-- C5: persistence round trip — for a state with a configured path and
a nonempty user store, after a save and a restart against the same path
every stored user can log in with a password matching its stored salted
hash, and every stored room is joinable by its original id with the
login's session token, returning its original overlay subnet
unchanged. -/
theorem persistence_roundtrip (hp : String → String → String) (w : World)
    (demoSalt u pw rid sTok dTok dev key : String)
    (rec : userRecord) (room : roomRecord)
    (hpath : w.server.persistPath ≠ "")
    (husers : w.server.users ≠ [])
    (hu : mapGet u w.server.users = some rec)
    (hhash : rec.Hash = hp pw rec.Salt)
    (hr : mapGet rid w.server.rooms = some room) :
    exceptOk (handleLogin hp
        (newServerWithStorage hp w.server.persistPath demoSalt (persistLocked w).fs)
        { Username := u, Password := pw } sTok dTok).1 = true ∧
    joinOverlay (handleJoinRoom
        (handleLogin hp
          (newServerWithStorage hp w.server.persistPath demoSalt (persistLocked w).fs)
          { Username := u, Password := pw } sTok dTok).2
        { RoomID := rid, DeviceID := dev, SessionToken := sTok } key).1
      = some room.OverlaySubnet := by
  have hfs : (persistLocked w).fs = mapSet w.server.persistPath (projState w.server) w.fs := by
    simp [persistLocked, hpath, saveState]
  have hload : loadState w.server.persistPath (persistLocked w).fs = projState w.server := by
    rw [hfs]; simp [loadState, mapGet_mapSet_self]
  have hnotempty : (projState w.server).Users.isEmpty = false := by
    cases hus : w.server.users with
    | nil => exact absurd hus husers
    | cons a t => simp [projState, hus]
  have hsrv : (newServerWithStorage hp w.server.persistPath demoSalt (persistLocked w).fs).server
      = { users := w.server.users, sessions := [], deviceBags := w.server.deviceBags,
          rooms := w.server.rooms, persistPath := w.server.persistPath } := by
    simp [newServerWithStorage, loadFromDisk, hpath, hload, hnotempty, projState]
    exact fun h => absurd h husers
  constructor
  · simp [handleLogin, hsrv, hu, hhash, exceptOk]
  · simp [handleLogin, handleJoinRoom, joinOverlay, exceptOk, hsrv, hu, hhash, hr,
      persistLocked_server, mapGet_mapSet_self]

/-- Witness for C5: a concrete one-user one-room state survives a save
and restart; the user logs in and rejoins the room, whose overlay subnet
is returned unchanged. -/
theorem persistence_roundtrip_witness :
    persistedWorld.server.persistPath ≠ "" ∧
    persistedWorld.server.users ≠ [] ∧
    mapGet ("nova") persistedWorld.server.users = some sampleUser ∧
    sampleUser.Hash = hcat ("warp123") sampleUser.Salt ∧
    mapGet ("room-1") persistedWorld.server.rooms = some roomRec1 ∧
    exceptOk (handleLogin hcat
        (newServerWithStorage hcat persistedWorld.server.persistPath ("ds")
          (persistLocked persistedWorld).fs)
        { Username := "nova", Password := "warp123" } ("sT") ("dT")).1 = true ∧
    joinOverlay (handleJoinRoom
        (handleLogin hcat
          (newServerWithStorage hcat persistedWorld.server.persistPath ("ds")
            (persistLocked persistedWorld).fs)
          { Username := "nova", Password := "warp123" } ("sT") ("dT")).2
        { RoomID := "room-1", DeviceID := "rig-device", SessionToken := "sT" } ("k")).1
      = some roomRec1.OverlaySubnet := by
  refine ⟨by decide, by decide, rfl, rfl, rfl, ?_⟩
  exact persistence_roundtrip hcat persistedWorld ("ds") ("nova") ("warp123") ("room-1")
    ("sT") ("dT") ("rig-device") ("k") sampleUser roomRec1
    (by decide) (by decide) rfl rfl rfl

/-- C6 counterexample: against a configured persistence path whose file
does not exist yet, a refresh with the seeded demo device identifier is
acknowledged with a fresh session token while nothing is ever written to
disk — refresh does not invoke the durable save before acknowledging. -/
theorem refresh_acknowledged_without_persist :
    freshPathWorld.server.persistPath = "p" ∧
    (handleRefresh freshPathWorld { DeviceToken := "demo-device" } ("tok9")).1
      = Except.ok { SessionToken := "tok9" } ∧
    (handleRefresh freshPathWorld { DeviceToken := "demo-device" } ("tok9")).2.fs = [] :=
  ⟨rfl, rfl, rfl⟩

/-- C6 as amended: register, login, createRoom and joinRoom invoke the
synchronous durable save before acknowledging success (the acknowledged
world holds exactly the save of its own state over the previous file
system); refresh, whose only mutation is to the in-memory session map
that is excluded from the persisted document, acknowledges without
invoking the save. -/
theorem mutations_persist_before_ack (hp : String → String → String) :
    (∀ (w : World) (req : RegisterRequest) (g sa st dt : String)
        (resp : RegisterResponse) (w2 : World),
        handleRegister hp w req g sa st dt = (Except.ok resp, w2) →
        w.server.persistPath ≠ "" →
        w2.fs = saveState w.server.persistPath (projState w2.server) w.fs) ∧
    (∀ (w : World) (req : LoginRequest) (st dt : String)
        (resp : LoginResponse) (w2 : World),
        handleLogin hp w req st dt = (Except.ok resp, w2) →
        w.server.persistPath ≠ "" →
        w2.fs = saveState w.server.persistPath (projState w2.server) w.fs) ∧
    (∀ (w : World) (req : CreateRoomRequest) (resp : CreateRoomResponse) (w2 : World),
        handleCreateRoom w req = (Except.ok resp, w2) →
        w.server.persistPath ≠ "" →
        w2.fs = saveState w.server.persistPath (projState w2.server) w.fs) ∧
    (∀ (w : World) (req : JoinRoomRequest) (key : String)
        (resp : JoinRoomResponse) (w2 : World),
        handleJoinRoom w req key = (Except.ok resp, w2) →
        w.server.persistPath ≠ "" →
        w2.fs = saveState w.server.persistPath (projState w2.server) w.fs) := by
  refine ⟨?_, ?_, ?_, ?_⟩
  · intro w req g sa st dt resp w2 h hpath
    obtain ⟨hresp, hw2, hrest⟩ := handleRegister_ok_elim hp w req g sa st dt resp w2 h
    subst hw2
    simp [persistLocked, persistLocked_server, hpath]
  · intro w req st dt resp w2 h hpath
    unfold handleLogin at h
    split at h
    · simp at h
    · split at h
      · simp at h
      · simp only [Prod.mk.injEq] at h
        obtain ⟨hresp, hw2⟩ := h
        subst hw2
        simp [persistLocked, persistLocked_server, hpath]
  · intro w req resp w2 h hpath
    unfold handleCreateRoom at h
    split at h
    · simp at h
    · split at h
      · simp at h
      · simp only [Prod.mk.injEq] at h
        obtain ⟨hresp, hw2⟩ := h
        subst hw2
        simp [persistLocked, persistLocked_server, hpath]
  · intro w req key resp w2 h hpath
    unfold handleJoinRoom at h
    split at h
    · simp at h
    · split at h
      · simp at h
      · simp only [Prod.mk.injEq] at h
        obtain ⟨hresp, hw2⟩ := h
        subst hw2
        simp [persistLocked, persistLocked_server, hpath]

/-- Witness for the amended C6: a concrete register against the
fresh-path state leaves exactly the saved document on disk. -/
theorem mutations_persist_before_ack_witness :
    freshPathWorld.server.persistPath ≠ "" ∧
    handleRegister hcat freshPathWorld leaderReq ("g") ("sa") ("st") ("dt")
      = (Except.ok { SessionToken := "st", DeviceToken := "dt" }, regPathWorld) ∧
    regPathWorld.fs
      = saveState freshPathWorld.server.persistPath (projState regPathWorld.server)
          freshPathWorld.fs :=
  ⟨by decide, rfl, (mutations_persist_before_ack hcat).1 freshPathWorld leaderReq
    ("g") ("sa") ("st") ("dt") { SessionToken := "st", DeviceToken := "dt" }
    regPathWorld rfl (by decide)⟩

/-- C7 counterexample: a username containing a tab — a whitespace
character — is accepted by register, because the code only rejects the
space character inside a username. -/
theorem register_accepts_tab_username :
    isGoSpace ('\t') = true ∧
    ("a\tb").data.contains ('\t') = true ∧
    (handleRegister hcat demoWorld
        { Username := "a\tb", Password := "pw", DeviceID := "d1" }
        ("g") ("sa") ("st") ("dt")).1
      = Except.ok { SessionToken := "st", DeviceToken := "dt" } :=
  ⟨rfl, rfl, rfl⟩

/-- C7 as amended: register fails InvalidInput whenever the username or
the password is empty or all-whitespace, or the username contains a
space character; in every such failure the state is unchanged, so no
user record is created and no tokens are issued.  Whitespace characters
other than the space inside a username are not rejected. -/
theorem register_rejects_invalid_input (hp : String → String → String) (w : World)
    (req : RegisterRequest) (g sa st dt : String)
    (h : trimSpace req.Username = "" ∨ trimSpace req.Password = "" ∨
      containsSpace req.Username = true) :
    handleRegister hp w req g sa st dt = (Except.error ApiError.invalidInput, w) := by
  by_cases h1 : trimSpace req.Username = "" ∨ trimSpace req.Password = ""
  · simp [handleRegister, h1]
  · have h2 : containsSpace req.Username = true := by
      rcases h with h | h | h
      · exact absurd (Or.inl h) h1
      · exact absurd (Or.inr h) h1
      · exact h
    simp [handleRegister, h1, h2]

/-- Witness for the amended C7: a username with an embedded space is
rejected without touching the state. -/
theorem register_rejects_invalid_input_witness :
    (trimSpace ("ab cd") = "" ∨ trimSpace ("pw") = "" ∨ containsSpace ("ab cd") = true) ∧
    handleRegister hcat demoWorld { Username := "ab cd", Password := "pw", DeviceID := "d" }
        ("g") ("sa") ("st") ("dt")
      = (Except.error ApiError.invalidInput, demoWorld) :=
  ⟨Or.inr (Or.inr rfl), register_rejects_invalid_input hcat demoWorld
    { Username := "ab cd", Password := "pw", DeviceID := "d" }
    ("g") ("sa") ("st") ("dt") (Or.inr (Or.inr rfl))⟩

/-- C8: after a successful registration, a second register of the same
username (with a validly shaped password) fails Conflict and leaves the
state exactly as it was, and the first registration's session and device
tokens still resolve to the original user. -/
theorem register_duplicate_conflict (hp : String → String → String) (w : World)
    (req1 : RegisterRequest) (g1 sa1 st1 dt1 : String) (resp1 : RegisterResponse)
    (w1 : World) (req2 : RegisterRequest) (g2 sa2 st2 dt2 : String)
    (h1 : handleRegister hp w req1 g1 sa1 st1 dt1 = (Except.ok resp1, w1))
    (hu : req2.Username = req1.Username)
    (hpw : ¬ trimSpace req2.Password = "") :
    handleRegister hp w1 req2 g2 sa2 st2 dt2 = (Except.error ApiError.conflict, w1) ∧
    mapGet resp1.SessionToken w1.server.sessions = some req1.Username ∧
    mapGet resp1.DeviceToken w1.server.deviceBags = some req1.Username := by
  obtain ⟨hresp, hw1, hna, hnb, hnc, hnone⟩ :=
    handleRegister_ok_elim hp w req1 g1 sa1 st1 dt1 resp1 w1 h1
  subst hresp
  subst hw1
  have hva2 : ¬ trimSpace req2.Username = "" := by rw [hu]; exact hna
  have hc2 : ¬ containsSpace req2.Username = true := by rw [hu]; exact hnc
  refine ⟨?_, ?_, ?_⟩
  · refine handleRegister_conflict hp _ req2 g2 sa2 st2 dt2 hva2 hpw hc2
      { Username := req1.Username, Salt := sa1, Hash := hp req1.Password sa1,
        Device := if req1.DeviceID = "" then g1 else req1.DeviceID,
        Admin := w.server.users.isEmpty } ?_
    rw [hu, persistLocked_server]
    exact mapGet_mapSet_self _ _ _
  · simp [persistLocked_server, mapGet_mapSet_self]
  · simp [persistLocked_server, mapGet_mapSet_self]

/-- Witness for C8: registering nova twice; the second call conflicts
and the first call's tokens still resolve. -/
theorem register_duplicate_conflict_witness :
    handleRegister hcat emptyWorld novaReq ("g") ("sa") ("st") ("dt")
      = (Except.ok { SessionToken := "st", DeviceToken := "dt" }, novaWorld) ∧
    ¬ trimSpace ("warp456") = "" ∧
    handleRegister hcat novaWorld { Username := "nova", Password := "warp456", DeviceID := "x" }
        ("g2") ("sa2") ("st2") ("dt2")
      = (Except.error ApiError.conflict, novaWorld) ∧
    mapGet ("st") novaWorld.server.sessions = some ("nova") ∧
    mapGet ("dt") novaWorld.server.deviceBags = some ("nova") :=
  ⟨rfl, by decide, register_duplicate_conflict hcat emptyWorld novaReq
    ("g") ("sa") ("st") ("dt") { SessionToken := "st", DeviceToken := "dt" } novaWorld
    { Username := "nova", Password := "warp456", DeviceID := "x" }
    ("g2") ("sa2") ("st2") ("dt2") rfl rfl (by decide)⟩

/-- C9: a successful createRoom assigns room id room-n and overlay
subnet 10.0.n.0/24 with n one plus the count of existing rooms, defaults
the MTU to 1400 and the transport to udp when unspecified, and stores
the room record with keepalive interval fixed at 15. -/
theorem createRoom_assigns_counters (w : World) (req : CreateRoomRequest)
    (resp : CreateRoomResponse) (w2 : World)
    (h : handleCreateRoom w req = (Except.ok resp, w2)) :
    resp.RoomID = "room-" ++ toString (w.server.rooms.length + 1) ∧
    resp.OverlaySubnet = "10.0." ++ toString (w.server.rooms.length + 1) ++ ".0/24" ∧
    resp.MTU = (if req.MTU = 0 then 1400 else req.MTU) ∧
    resp.PreferredTransport =
      (if req.PreferredTransport = "" then TransportUDP else req.PreferredTransport) ∧
    mapGet resp.RoomID w2.server.rooms =
      some { ID := resp.RoomID, Name := req.Name,
             PreferredTransport := resp.PreferredTransport, MTU := resp.MTU,
             OverlaySubnet := resp.OverlaySubnet, KeepaliveInterval := 15, Members := [] } := by
  unfold handleCreateRoom at h
  split at h
  · simp at h
  · split at h
    · simp at h
    · simp only [Prod.mk.injEq, Except.ok.injEq] at h
      obtain ⟨hresp, hw2⟩ := h
      subst hresp
      subst hw2
      refine ⟨rfl, rfl, rfl, rfl, ?_⟩
      rw [persistLocked_server]
      simp [mapGet_mapSet_self]

/-- Witness for C9: the first room created in a concrete state is
room-1 on 10.0.1.0/24 with defaulted mtu 1400, transport udp and
keepalive 15. -/
theorem createRoom_assigns_counters_witness :
    handleCreateRoom adminWorld cr9 = (Except.ok cr9resp, crWorld) ∧
    (cr9resp.RoomID = "room-" ++ toString (adminWorld.server.rooms.length + 1) ∧
     cr9resp.OverlaySubnet
       = "10.0." ++ toString (adminWorld.server.rooms.length + 1) ++ ".0/24" ∧
     cr9resp.MTU = (if cr9.MTU = 0 then 1400 else cr9.MTU) ∧
     cr9resp.PreferredTransport
       = (if cr9.PreferredTransport = "" then TransportUDP else cr9.PreferredTransport) ∧
     mapGet cr9resp.RoomID crWorld.server.rooms =
       some { ID := cr9resp.RoomID, Name := cr9.Name,
              PreferredTransport := cr9resp.PreferredTransport, MTU := cr9resp.MTU,
              OverlaySubnet := cr9resp.OverlaySubnet, KeepaliveInterval := 15,
              Members := [] }) :=
  ⟨rfl, createRoom_assigns_counters adminWorld cr9 cr9resp crWorld rfl⟩

/-- C10: device identifiers and device tokens share one lookup map —
after a successful registration with a caller-chosen device id, a
refresh presenting that device id as its token succeeds and yields a
session token resolving to the user, and the seeded demo identifier
demo-device refreshes to the demo user the same way. -/
theorem device_id_usable_as_refresh_token (hp : String → String → String) :
    (∀ (w : World) (req : RegisterRequest) (g sa st dt : String)
        (resp : RegisterResponse) (w1 : World) (tok2 : String),
        handleRegister hp w req g sa st dt = (Except.ok resp, w1) →
        req.DeviceID ≠ "" →
        (handleRefresh w1 { DeviceToken := req.DeviceID } tok2).1
          = Except.ok { SessionToken := tok2 } ∧
        mapGet tok2 (handleRefresh w1 { DeviceToken := req.DeviceID } tok2).2.server.sessions
          = some req.Username) ∧
    (∀ (salt tok2 : String) (fs : List (String × persistentState)),
        (handleRefresh (newServerWithStorage hp ("") salt fs)
            { DeviceToken := "demo-device" } tok2).1 = Except.ok { SessionToken := tok2 } ∧
        mapGet tok2 (handleRefresh (newServerWithStorage hp ("") salt fs)
            { DeviceToken := "demo-device" } tok2).2.server.sessions = some ("gamer")) := by
  constructor
  · intro w req g sa st dt resp w1 tok2 h hD
    obtain ⟨hresp, hw1, hna, hnb, hnc, hnone⟩ :=
      handleRegister_ok_elim hp w req g sa st dt resp w1 h
    subst hw1
    have hdev : (if req.DeviceID = "" then g else req.DeviceID) = req.DeviceID := if_neg hD
    have hbag : mapGet req.DeviceID (mapSet dt req.Username
        (mapSet req.DeviceID req.Username w.server.deviceBags)) = some req.Username := by
      by_cases hdt : dt = req.DeviceID
      · subst hdt; rw [mapGet_mapSet_self]
      · rw [mapGet_mapSet_ne _ _ hdt, mapGet_mapSet_self]
    constructor
    · simp [handleRefresh, persistLocked_server, hdev, hbag]
    · simp [handleRefresh, persistLocked_server, hdev, hbag, mapGet_mapSet_self]
  · intro salt tok2 fs
    constructor
    · simp [newServerWithStorage, seedDemoUser, handleRefresh, mapGet, mapSet]
    · simp [newServerWithStorage, seedDemoUser, handleRefresh, mapGet, mapSet,
        mapGet_mapSet_self]

/-- Witness for C10: nova registers with device rig-device, then a
refresh presenting rig-device is accepted and resolves to nova. -/
theorem device_id_usable_as_refresh_token_witness :
    handleRegister hcat emptyWorld novaReq ("g") ("sa") ("st") ("dt")
      = (Except.ok { SessionToken := "st", DeviceToken := "dt" }, novaWorld) ∧
    novaReq.DeviceID ≠ "" ∧
    ((handleRefresh novaWorld { DeviceToken := novaReq.DeviceID } ("tk2")).1
        = Except.ok { SessionToken := "tk2" } ∧
      mapGet ("tk2")
          (handleRefresh novaWorld { DeviceToken := novaReq.DeviceID } ("tk2")).2.server.sessions
        = some ("nova")) :=
  ⟨rfl, by decide, (device_id_usable_as_refresh_token hcat).1 emptyWorld novaReq
    ("g") ("sa") ("st") ("dt") { SessionToken := "st", DeviceToken := "dt" } novaWorld
    ("tk2") rfl (by decide)⟩

end Protocol
